import Mathlib

/-!
Shallow embedding of the MangaRecap pipeline (the Python processing code of
this repository, embedded in `src/app/layout.tsx` as the `panelDetectCode`,
`ttsCode` and `videoGenCode` snippets).

Conventions of the embedding:
* pixel coordinates and sizes are `Nat` (OpenCV bounding rectangles are
  non-negative integers); derived offsets that can go negative are `Int`;
* seconds, zoom factors and progress values are `Rat`;
* Python `int(x)` (truncation toward zero) is `pyint`;
* Python `a // b` on integers (floor division) is `Int` division `/`
  (Euclidean division, which is floor division for positive divisors);
* external collaborators (cv2 decoding, contour extraction, pixel
  resampling, ffmpeg encoding) are treated as data sources: `detect_panels`
  receives the contour list that `cv2.findContours` produced, each contour
  carrying the `cv2.contourArea` value and the `cv2.boundingRect` box, and
  the Ken Burns renderer is modelled by the crop-rectangle geometry it
  computes, which together with the immutable source image determines the
  emitted frame.
-/

/-- A detected contour as `detect_panels` consumes it: the value returned by
`cv2.contourArea(contour)` together with the `cv2.boundingRect(contour)`
bounding box `(x, y, w, h)`. -/
structure Contour where
  area : Nat
  x : Nat
  y : Nat
  w : Nat
  h : Nat
deriving DecidableEq, Repr

/-- A `Panel` as built by `detect_panels`: the bounding rectangle
`Panel(x=x, y=y, width=w, height=h, image=...)`; the cropped pixel
payload `img[y:y+h, x:x+w]` is determined by the rectangle and is not
re-modelled. -/
structure Panel where
  x : Nat
  y : Nat
  w : Nat
  h : Nat
deriving DecidableEq, Repr

/-- The area filter of `detect_panels`: the loop body runs
`if area < min_area: continue`, so a contour survives exactly when its
area is not below `min_area`. -/
def surviving (cs : List Contour) (min_area : Nat) : List Contour :=
  cs.filter (fun c => !decide (c.area < min_area))

/-- The panel built from one surviving contour:
`x, y, w, h = cv2.boundingRect(contour)` then
`panels.append(Panel(x=x, y=y, width=w, height=h, image=panel_img))`. -/
def contour_box (c : Contour) : Panel :=
  { x := c.x, y := c.y, w := c.w, h := c.h }

/-- The comparator realising the stable Python sort
`panels.sort(key=lambda p: (p.y // 100, -p.x))` on index-decorated panels.
Python's `list.sort` is stable, so its result is the unique permutation
that is sorted by the key `(y // 100, -x)` and keeps equal-key elements in
original order; decorating each panel with its original position and
ordering by the key extended lexicographically with that position captures
exactly this: band `y / 100` ascending, then `x` descending (`-x`
ascending), then original index ascending. -/
def pkLe (a b : Nat × Panel) : Prop :=
  a.2.y / 100 < b.2.y / 100 ∨
    (a.2.y / 100 = b.2.y / 100 ∧
      (b.2.x < a.2.x ∨ (a.2.x = b.2.x ∧ a.1 ≤ b.1)))

instance (a b : Nat × Panel) : Decidable (pkLe a b) := by
  unfold pkLe
  exact inferInstance

instance : IsTotal (Nat × Panel) pkLe :=
  ⟨by intro a b; unfold pkLe; omega⟩

instance : IsTrans (Nat × Panel) pkLe :=
  ⟨by intro a b c; unfold pkLe; omega⟩

/-- The reading-order sort `panels.sort(key=lambda p: (p.y // 100, -p.x))`
(stable), modelled as sorting the index-decorated list by `pkLe` and
dropping the indices. -/
def sort_panels (ps : List Panel) : List Panel :=
  (List.insertionSort pkLe ps.enum).map Prod.snd

/-- `detect_panels(image_path, min_area)` from `panelDetectCode`: filter the
contours by area, take each survivor's bounding box, and sort the boxes in
manga reading order. There is no further processing: no containment
filtering and no synthetic fallback panel. -/
def detect_panels (cs : List Contour) (min_area : Nat) : List Panel :=
  sort_panels ((surviving cs min_area).map contour_box)

/-- Full containment of one bounding box inside another, the relation the
specification's containment-discarding step would use. -/
abbrev box_contains (outer inner : Panel) : Prop :=
  outer.x ≤ inner.x ∧ inner.x + inner.w ≤ outer.x + outer.w ∧
    outer.y ≤ inner.y ∧ inner.y + inner.h ≤ outer.y + outer.h

/-- Input to `create_recap_script` in `ttsCode`: one dict per panel, read
with `panel.get('text', '')` and `panel.get('description', '')` (absent keys
behave as the empty string, so the two strings are the whole state). -/
structure PanelData where
  text : String
  descr : String
deriving DecidableEq, Repr

/-- The contribution of one panel to the script in `create_recap_script`:
`if text: script_parts.append(f"{text}") elif desc:
script_parts.append(f"[Scene: {desc}]")` — Python string truthiness means
non-empty; a panel whose text and description are both empty appends
nothing. -/
def unit_of (p : PanelData) : Option String :=
  if p.text ≠ "" then some p.text
  else if p.descr ≠ "" then some ("[Scene: " ++ p.descr ++ "]")
  else none

/-- The `script_parts` list accumulated by the loop of
`create_recap_script`. -/
def script_parts (ps : List PanelData) : List String :=
  ps.filterMap unit_of

/-- `create_recap_script(panels_data)`: `" ... ".join(script_parts)`. -/
def create_recap_script (ps : List PanelData) : String :=
  String.intercalate " ... " (script_parts ps)

/-- One scene dict as `create_manga_recap` consumes it: `scene['image']`
and the optional `scene.get('duration', 5)`. -/
structure SceneDict where
  image : String
  duration : Option Rat
deriving DecidableEq, Repr

/-- The clip duration `create_manga_recap` uses for a scene:
`scene.get('duration', 5)`. -/
def scene_clip_duration (s : SceneDict) : Rat :=
  s.duration.getD 5

/-- The scene list built by the pipeline `create_manga_recap_video`:
`scenes = [{'image': img, 'duration': 5} for img in images[:20]]` — every
scene gets the fixed 5-second duration, independent of the narration audio
and of any weights. -/
def make_scenes (images : List String) : List SceneDict :=
  (images.take 20).map (fun img => { image := img, duration := some 5 })

/-- The per-scene durations the pipeline ends up allocating, i.e. the clip
durations of `make_scenes` (this is the only duration assignment in the
code; no audio-driven allocator exists). -/
def allocated_durations (images : List String) : List Rat :=
  (make_scenes images).map scene_clip_duration

/-- The fixed cycle of pan directions in `create_manga_recap`:
`pan_directions = ['right', 'left', 'up', 'down']`. -/
def pan_directions : List String :=
  ["right", "left", "up", "down"]

/-- The direction assigned to scene `i`:
`pan_directions[i % len(pan_directions)]`. -/
def pan_direction_for (i : Nat) : String :=
  pan_directions.getD (i % pan_directions.length) "right"

/-- Python `int(q)` on a non-negative or negative rational: truncation
toward zero. -/
def pyint (q : Rat) : Int :=
  q.num.tdiv q.den

/-- Parameters of `create_ken_burns_clip` plus the dimensions of the source
image it is applied to: `self.resolution = (resW, resH)`, the image is
`srcW × srcH` pixels, and the keyword arguments `duration`, `zoom_start`,
`zoom_end`, `pan_direction`. -/
structure KBParams where
  resW : Nat
  resH : Nat
  srcW : Nat
  srcH : Nat
  duration : Rat
  zoom_start : Rat
  zoom_end : Rat
  pan : String
deriving DecidableEq, Repr

/-- Height of the pre-cropping resize
`clip.resize(height=int(self.resolution[1] * zoom_end))`. -/
def resized_h (p : KBParams) : Int :=
  pyint (p.resH * p.zoom_end)

/-- Width of the pre-cropping resize: moviepy's `resize(height=h)` keeps
the aspect ratio, scaling the width to `srcW * h / srcH` (modelled with
truncation to whole pixels). The resize is driven by the height alone; the
width is never compared against any required crop width. -/
def resized_w (p : KBParams) : Int :=
  pyint ((p.srcW : Rat) * (resized_h p : Rat) / (p.srcH : Rat))

/-- `progress = t / duration` inside `zoom_and_pan`. -/
def progress (p : KBParams) (t : Rat) : Rat :=
  t / p.duration

/-- `current_zoom = zoom_start + (zoom_end - zoom_start) * progress`. -/
def current_zoom (p : KBParams) (t : Rat) : Rat :=
  p.zoom_start + (p.zoom_end - p.zoom_start) * progress p t

/-- `crop_h = int(self.resolution[1] / current_zoom)`. -/
def crop_h (p : KBParams) (t : Rat) : Int :=
  pyint (p.resH / current_zoom p t)

/-- `crop_w = int(self.resolution[0] / current_zoom)`. -/
def crop_w (p : KBParams) (t : Rat) : Int :=
  pyint (p.resW / current_zoom p t)

/-- The `x_offset` branch of `zoom_and_pan`: `int((w - crop_w) * progress)`
for `"right"`, `int((w - crop_w) * (1 - progress))` for `"left"`, and the
centring `(w - crop_w) // 2` for every other direction (there is no branch
for `'up'` or `'down'`). -/
def x_offset (p : KBParams) (t : Rat) : Int :=
  if p.pan = "right" then pyint ((resized_w p - crop_w p t : Int) * progress p t)
  else if p.pan = "left" then pyint ((resized_w p - crop_w p t : Int) * (1 - progress p t))
  else (resized_w p - crop_w p t) / 2

/-- The `y_offset` of `zoom_and_pan`: every branch assigns the centring
`(h - crop_h) // 2`; no direction ever moves the vertical origin. -/
def y_offset (p : KBParams) (t : Rat) : Int :=
  (resized_h p - crop_h p t) / 2

/-- The data `zoom_and_pan` computes at time `t` that, together with the
immutable resized source image, determines the emitted frame: the crop
rectangle `frame[y_offset:y_offset+crop_h, x_offset:x_offset+crop_w]` and
the fixed output resolution of the final `cv2.resize`. -/
def frame_at (p : KBParams) (t : Rat) : Int × Int × Int × Int × Nat × Nat :=
  (x_offset p t, y_offset p t, crop_w p t, crop_h p t, p.resW, p.resH)

/-- The crop rectangle at time `t` lies inside the resized source image. -/
abbrev crop_in_bounds (p : KBParams) (t : Rat) : Prop :=
  0 ≤ x_offset p t ∧ x_offset p t + crop_w p t ≤ resized_w p ∧
    0 ≤ y_offset p t ∧ y_offset p t + crop_h p t ≤ resized_h p

/-- Durations of the clip list built by `create_manga_recap`: the
3-second title card (`title_clip`/`title_bg` both `set_duration(3)`,
composited and appended first) followed by one Ken Burns clip per scene
with duration `scene.get('duration', 5)`. -/
def recap_clip_durations (scenes : List SceneDict) : List Rat :=
  3 :: scenes.map scene_clip_duration

/-- Total duration of `video = concatenate_videoclips(clips)` in
`create_manga_recap`, before any audio reconciliation. -/
def video_duration (scenes : List SceneDict) : Rat :=
  (recap_clip_durations scenes).sum

/-- The audio reconciliation of `create_manga_recap`: when an audio track
exists and `audio.duration > video.duration`, the whole concatenated video
is stretched with `video.set_duration(audio.duration)`; the scene list
itself is never modified. The result is the (unchanged) scene list paired
with the final total video duration. -/
def assemble (scenes : List SceneDict) (audio : Option Rat) :
    List SceneDict × Rat :=
  match audio with
  | none => (scenes, video_duration scenes)
  | some a =>
      (scenes, if a > video_duration scenes then a else video_duration scenes)

/-! Helper lemmas for evaluating `pyint` and the crop geometry. -/

/-- On non-negative rationals, Python `int()` truncation agrees with the
floor. -/
theorem pyint_eq_floor {q : Rat} (hq : 0 ≤ q) : pyint q = ⌊q⌋ := by
  rw [Rat.floor_def, pyint]
  exact Int.tdiv_eq_ediv (Rat.num_nonneg.mpr hq) (Int.ofNat_nonneg _)

/-- Evaluation rule for `pyint` on non-negative values squeezed between an
integer and its successor. -/
theorem pyint_eq_of {q : Rat} (n : Int) (h0 : 0 ≤ n) (h1 : (n : Rat) ≤ q)
    (h2 : q < n + 1) : pyint q = n := by
  have hq : 0 ≤ q := le_trans (by exact_mod_cast h0) h1
  rw [pyint_eq_floor hq]
  rw [Int.floor_eq_iff]
  · exact ⟨h1, by exact_mod_cast h2⟩

/-! Concrete instances used by counterexamples and witnesses. -/

/-- A portrait source image (700×1000) rendered at 1080p with zoom
1.0 → 1.2, panning right: the height-only resize makes the resized frame
907 pixels wide while the crop at `zoom_start` needs 1920. -/
def kbNarrow : KBParams := ⟨1920, 1080, 700, 1000, 5, 1, 6/5, "right"⟩

/-- A landscape source image (2000×1000) rendered at 1080p with zoom
1.0 → 1.2 and the `'up'` pan direction that `create_manga_recap` assigns to
every third scene. -/
def kbUp : KBParams := ⟨1920, 1080, 2000, 1000, 5, 1, 6/5, "up"⟩

/-- Two scenes whose clip durations sum to 28 seconds (Scenario C of the
specification, against a 30-second audio track). -/
def scenes28 : List SceneDict := [⟨"a", some 14⟩, ⟨"b", some 14⟩]

/-- C2: the Panel Segmenter's output is the stable reading-order sort of the
detected boxes: on the index-decorated list whose order projects onto
`detect_panels` (first conjunct, definitional), every earlier panel has a
band `y / 100` no larger than every later one, within equal bands the
x-coordinates are non-increasing (right-to-left), and panels tied on both
keys keep their original detection order. -/
theorem detect_panels_reading_order (cs : List Contour) (m : Nat) :
    (List.insertionSort pkLe ((surviving cs m).map contour_box).enum).map Prod.snd
        = detect_panels cs m ∧
      List.Pairwise (fun a b : Nat × Panel =>
        a.2.y / 100 ≤ b.2.y / 100 ∧
          (a.2.y / 100 = b.2.y / 100 → b.2.x ≤ a.2.x) ∧
          (a.2.y / 100 = b.2.y / 100 ∧ a.2.x = b.2.x → a.1 ≤ b.1))
        (List.insertionSort pkLe ((surviving cs m).map contour_box).enum) := by
  refine ⟨rfl, ?_⟩
  refine (List.sorted_insertionSort pkLe _).imp ?_
  intro a b h
  unfold pkLe at h
  omega

/-- C3 counterexample: on a page whose only contour falls below the
minimum-area threshold, `detect_panels` returns the empty list — not the
single synthetic full-page panel the claim promises, so the result list can
be empty. -/
theorem detect_panels_empty_cex :
    detect_panels [⟨5000, 0, 0, 50, 50⟩] 10000 = [] := by decide

/-- C3 amended: when zero candidate regions survive the minimum-area
filtering, `detect_panels` returns the empty list (there is no synthetic
fallback panel in the code). -/
theorem detect_panels_eq_nil (cs : List Contour) (m : Nat)
    (h : ∀ c ∈ cs, c.area < m) : detect_panels cs m = [] := by
  have hs : surviving cs m = [] := by
    rw [surviving, List.filter_eq_nil_iff]
    intro c hc
    simp [h c hc]
  rw [detect_panels, hs]
  rfl

/-- C3 witness: `detect_panels_eq_nil` applied to a concrete page whose one
contour has area 5000 < 10000. -/
theorem detect_panels_eq_nil_witness :
    (∀ c ∈ ([⟨5000, 0, 0, 50, 50⟩] : List Contour), c.area < 10000) ∧
      detect_panels [⟨5000, 0, 0, 50, 50⟩] 10000 = [] :=
  ⟨by decide, detect_panels_eq_nil _ _ (by decide)⟩

/-- C4 counterexample: two surviving contours whose bounding boxes are
nested both appear in the output of `detect_panels`: the 50×50 box at
(10, 10) is fully contained in the 200×200 box at (0, 0), yet neither is
discarded. -/
theorem detect_panels_nested_cex :
    (⟨0, 0, 200, 200⟩ : Panel) ∈
        detect_panels [⟨20000, 0, 0, 200, 200⟩, ⟨12000, 10, 10, 50, 50⟩] 10000 ∧
      (⟨10, 10, 50, 50⟩ : Panel) ∈
        detect_panels [⟨20000, 0, 0, 200, 200⟩, ⟨12000, 10, 10, 50, 50⟩] 10000 ∧
      (⟨0, 0, 200, 200⟩ : Panel) ≠ ⟨10, 10, 50, 50⟩ ∧
      box_contains ⟨0, 0, 200, 200⟩ ⟨10, 10, 50, 50⟩ := by decide

/-- C4 amended: `detect_panels` performs no containment filtering at all:
its output is exactly the reading-order permutation of every box that
survives the area filter, so a box fully contained in another surviving box
is kept. -/
theorem detect_panels_keeps_all_surviving (cs : List Contour) (m : Nat) :
    (detect_panels cs m).Perm ((surviving cs m).map contour_box) := by
  unfold detect_panels sort_panels
  have h1 := (List.perm_insertionSort pkLe ((surviving cs m).map contour_box).enum).map
    (Prod.snd (α := Nat) (β := Panel))
  rwa [List.enum_map_snd] at h1

/-- C1 counterexample: with audio duration D = 30 s and N = 1 scene the
configuration satisfies `N · floor ≤ D` (1 · 1.5 ≤ 30), yet the pipeline's
allocated durations sum to 5, so `|Σdᵢ − D| = 25` is not below the 0.05 s
tolerance the specification's Scenario B allows. -/
theorem allocated_durations_cex :
    (1 : Rat) * (3/2) ≤ 30 ∧
      ¬ |(allocated_durations ["p1"]).sum - 30| < 1/20 := by
  have hs : (allocated_durations ["p1"]).sum = 5 := by
    simp [allocated_durations, make_scenes, scene_clip_duration]
  rw [hs]
  norm_num

/-- C1 amended: the pipeline contains no audio-driven Duration Allocator:
every scene receives the fixed 5-second duration independent of the audio
duration and of any weights, so every `dᵢ = 5` (which does satisfy the
1.5 s floor) and `Σdᵢ = 5 · min(N, 20)` rather than the audio duration. -/
theorem allocated_durations_const (images : List String) :
    (∀ d ∈ allocated_durations images, d = 5 ∧ (3/2 : Rat) ≤ d) ∧
      (allocated_durations images).sum = 5 * ((min 20 images.length : Nat) : Rat) := by
  constructor
  · intro d hd
    simp only [allocated_durations, make_scenes, List.map_map, List.mem_map] at hd
    obtain ⟨img, -, rfl⟩ := hd
    exact ⟨rfl, by norm_num [scene_clip_duration]⟩
  · simp only [allocated_durations, make_scenes, List.map_map]
    have : (images.take 20).map (scene_clip_duration ∘ fun img =>
        ({ image := img, duration := some 5 } : SceneDict)) =
        List.replicate (images.take 20).length 5 := List.map_const' _ _
    rw [this, List.sum_replicate, List.length_take, nsmul_eq_mul]
    push_cast
    ring

/-- C1 witness: `allocated_durations_const` applied to the one-image
pipeline run, with the membership hypothesis discharged at the concrete
duration 5. -/
theorem allocated_durations_const_witness :
    ((5 : Rat) ∈ allocated_durations ["p1"] ∧ (5 : Rat) = 5 ∧ (3/2 : Rat) ≤ 5) ∧
      (allocated_durations ["p1"]).sum = 5 * ((min 20 1 : Nat) : Rat) :=
  ⟨⟨by simp [allocated_durations, make_scenes, scene_clip_duration],
    (allocated_durations_const ["p1"]).1 5
      (by simp [allocated_durations, make_scenes, scene_clip_duration]),⟩,
   (allocated_durations_const ["p1"]).2⟩

/-- C5: the Ken Burns frame function is pure and deterministic: the frame
data at time `t` is a function of the clip parameters and `t` alone (the
`zoom_and_pan` closure reads only its immutable captured arguments), so any
two evaluations at equal times yield identical frames regardless of
evaluation order. -/
theorem frame_at_deterministic (p : KBParams) (t t' : Rat) (h : t = t') :
    frame_at p t = frame_at p t' := by rw [h]

/-- C5 witness: `frame_at_deterministic` at a concrete clip and time. -/
theorem frame_at_deterministic_witness :
    (1 : Rat) = 1 ∧ frame_at kbNarrow 1 = frame_at kbNarrow 1 :=
  ⟨rfl, frame_at_deterministic kbNarrow 1 1 rfl⟩

/-- C6 counterexample: for a 700×1000 portrait source at 1080p with zoom
1.0 → 1.2 (both factors ≥ 1) and t = 0 ∈ [0, T], the crop window exceeds
the resized source: the resize is driven by height only (1296 px), leaving
a width of 907 px while the crop at `zoom_start` needs 1920 px, so no
upscaling to the largest required crop window takes place. -/
theorem crop_out_of_bounds_cex :
    (1 ≤ kbNarrow.zoom_start ∧ 1 ≤ kbNarrow.zoom_end ∧
        (0 : Rat) ≤ 0 ∧ (0 : Rat) ≤ kbNarrow.duration ∧ 0 < kbNarrow.duration) ∧
      ¬ crop_in_bounds kbNarrow 0 := by
  refine ⟨⟨by norm_num [kbNarrow], by norm_num [kbNarrow], le_rfl,
    by norm_num [kbNarrow], by norm_num [kbNarrow]⟩, ?_⟩
  have hz : current_zoom kbNarrow 0 = 1 := by
    norm_num [current_zoom, progress, kbNarrow]
  have hh : resized_h kbNarrow = 1296 := by
    rw [resized_h]
    exact pyint_eq_of 1296 (by norm_num) (by norm_num [kbNarrow]) (by norm_num [kbNarrow])
  have hw : resized_w kbNarrow = 907 := by
    rw [resized_w, hh]
    exact pyint_eq_of 907 (by norm_num) (by norm_num [kbNarrow]) (by norm_num [kbNarrow])
  have hcw : crop_w kbNarrow 0 = 1920 := by
    rw [crop_w, hz]
    exact pyint_eq_of 1920 (by norm_num) (by norm_num [kbNarrow]) (by norm_num [kbNarrow])
  have hx : x_offset kbNarrow 0 = 0 := by
    rw [x_offset, if_pos (show kbNarrow.pan = "right" from rfl)]
    have hp : progress kbNarrow 0 = 0 := by norm_num [progress, kbNarrow]
    rw [hp]
    norm_num
    exact pyint_eq_of 0 le_rfl (by norm_num) (by norm_num)
  rintro ⟨-, h2, -, -⟩
  rw [hx, hcw, hw] at h2
  omega

/-- C6 amended: the height-driven resize does keep the vertical extent of
the crop inside the source for zoom factors ≥ 1 and t ∈ [0, T] (the resized
height `⌊resH · zoom_end⌋` dominates every crop height `⌊resH / zoom⌋`);
only the horizontal extent lacks this guarantee, as the counterexample
shows. -/
theorem crop_vertical_in_bounds (p : KBParams) (t : Rat)
    (hz0 : 1 ≤ p.zoom_start) (hz1 : 1 ≤ p.zoom_end)
    (hT : 0 < p.duration) (ht0 : 0 ≤ t) (ht1 : t ≤ p.duration) :
    0 ≤ y_offset p t ∧ y_offset p t + crop_h p t ≤ resized_h p := by
  have hp0 : 0 ≤ progress p t := div_nonneg ht0 hT.le
  have hp1 : progress p t ≤ 1 := (div_le_one hT).mpr ht1
  have hz : 1 ≤ current_zoom p t := by
    rw [current_zoom]
    nlinarith
  have hzpos : (0 : Rat) < current_zoom p t := lt_of_lt_of_le one_pos hz
  have hch_def : crop_h p t = ⌊(p.resH : Rat) / current_zoom p t⌋ := by
    rw [crop_h]
    exact pyint_eq_floor (by positivity)
  have hch0 : 0 ≤ crop_h p t := by
    rw [hch_def]
    exact Int.floor_nonneg.mpr (by positivity)
  have hch_le : crop_h p t ≤ (p.resH : Int) := by
    rw [hch_def]
    have hle : (p.resH : Rat) / current_zoom p t ≤ (p.resH : Rat) :=
      div_le_self (by positivity) hz
    calc ⌊(p.resH : Rat) / current_zoom p t⌋ ≤ ⌊(p.resH : Rat)⌋ :=
          Int.floor_le_floor hle
      _ = (p.resH : Int) := Int.floor_natCast _
  have hh_ge : (p.resH : Int) ≤ resized_h p := by
    rw [resized_h, pyint_eq_floor (by positivity)]
    rw [Int.le_floor]
    push_cast
    nlinarith [Nat.cast_nonneg (α := Rat) p.resH]
  rw [y_offset]
  omega

/-- C6 witness: `crop_vertical_in_bounds` at the concrete clip `kbUp` and
time t = 2 ∈ [0, 5]. -/
theorem crop_vertical_in_bounds_witness :
    (1 ≤ kbUp.zoom_start ∧ 1 ≤ kbUp.zoom_end ∧ 0 < kbUp.duration ∧
        (0 : Rat) ≤ 2 ∧ (2 : Rat) ≤ kbUp.duration) ∧
      0 ≤ y_offset kbUp 2 ∧ y_offset kbUp 2 + crop_h kbUp 2 ≤ resized_h kbUp :=
  ⟨⟨by norm_num [kbUp], by norm_num [kbUp], by norm_num [kbUp],
    by norm_num, by norm_num [kbUp]⟩,
    crop_vertical_in_bounds kbUp 2 (by norm_num [kbUp]) (by norm_num [kbUp])
      (by norm_num [kbUp]) (by norm_num) (by norm_num [kbUp])⟩

/-- C7: the `'up'` direction — which `create_manga_recap` really assigns, to
every scene with index ≡ 2 (mod 4) — falls into the centring `else` branch
of `zoom_and_pan`: the vertical origin stays centred (108 px at t = 0 and
198 px at t = T for the `kbUp` clip) instead of moving linearly from 0 to
`h − crop_h` = 396 px as the specification describes. -/
theorem vertical_pan_is_static :
    pan_direction_for 2 = "up" ∧ kbUp.pan = pan_direction_for 2 ∧
      y_offset kbUp 0 = 108 ∧ y_offset kbUp kbUp.duration = 198 ∧
      resized_h kbUp - crop_h kbUp kbUp.duration = 396 ∧
      y_offset kbUp 0 ≠ 0 ∧
      y_offset kbUp kbUp.duration ≠ resized_h kbUp - crop_h kbUp kbUp.duration := by
  have hh : resized_h kbUp = 1296 := by
    rw [resized_h]
    exact pyint_eq_of 1296 (by norm_num) (by norm_num [kbUp]) (by norm_num [kbUp])
  have hz0 : current_zoom kbUp 0 = 1 := by
    norm_num [current_zoom, progress, kbUp]
  have hz5 : current_zoom kbUp kbUp.duration = 6/5 := by
    norm_num [current_zoom, progress, kbUp]
  have hc0 : crop_h kbUp 0 = 1080 := by
    rw [crop_h, hz0]
    exact pyint_eq_of 1080 (by norm_num) (by norm_num [kbUp]) (by norm_num [kbUp])
  have hc5 : crop_h kbUp kbUp.duration = 900 := by
    rw [crop_h, hz5]
    exact pyint_eq_of 900 (by norm_num) (by norm_num [kbUp]) (by norm_num [kbUp])
  refine ⟨by decide, rfl, ?_, ?_, ?_, ?_, ?_⟩
  · rw [y_offset, hh, hc0]
    decide
  · rw [y_offset, hh, hc5]
    decide
  · rw [hh, hc5]
    decide
  · rw [y_offset, hh, hc0]
    decide
  · rw [y_offset, hh, hc5]
    decide

/-- C8 counterexample: Scenario C (scene durations summing to 28 s, audio
30 s) produces no extension at all: the comparison uses the full video
duration including the 3-second title card (31 s > 30 s), the scene list is
returned unchanged, and the final total is 31 s — not the 30 s that
extending the final scene by the 2 s shortfall would give. -/
theorem assemble_no_scene_extension_cex :
    (scenes28.map scene_clip_duration).sum = 28 ∧ (28 : Rat) < 30 ∧
      (assemble scenes28 (some 30)).1 = scenes28 ∧
      (assemble scenes28 (some 30)).2 = 31 ∧ (31 : Rat) ≠ 30 := by
  have hs : (scenes28.map scene_clip_duration).sum = 28 := by
    simp [scenes28, scene_clip_duration]
    norm_num
  have hv : video_duration scenes28 = 31 := by
    simp [video_duration, recap_clip_durations, scenes28, scene_clip_duration]
    norm_num
  refine ⟨hs, by norm_num, rfl, ?_, by norm_num⟩
  rw [assemble]
  simp only [hv]
  norm_num

/-- C8 amended: the assembler never modifies any scene's duration; when an
audio track is present the total video duration becomes the maximum of the
audio duration and the title-card-inclusive video duration (the whole
concatenated clip is stretched, and only when audio exceeds 3 s + Σ scene
durations). -/
theorem assemble_stretches_whole_video (scenes : List SceneDict) (a : Rat) :
    (assemble scenes (some a)).1 = scenes ∧
      (assemble scenes (some a)).2 = max (video_duration scenes) a := by
  refine ⟨rfl, ?_⟩
  rw [assemble]
  by_cases h : video_duration scenes < a
  · simp only [gt_iff_lt, h, if_true]
    exact (max_eq_right h.le).symm
  · simp only [gt_iff_lt, h, if_false]
    exact (max_eq_left (not_lt.mp h)).symm

/-- C9 counterexample: a single panel whose OCR text and description are
both empty yields no narration unit at all — `script_parts` is empty and
the joined script is the empty string, contradicting the promised
one-placeholder-unit-per-panel guarantee. -/
theorem empty_panel_no_unit_cex :
    script_parts [⟨"", ""⟩] = [] ∧ create_recap_script [⟨"", ""⟩] = "" := by
  constructor
  · decide
  · decide

/-- A panel contributes a unit exactly when its text or its description is
non-empty. -/
theorem unit_of_isSome (p : PanelData) :
    (unit_of p).isSome = (!(p.text == "") || !(p.descr == "")) := by
  rw [unit_of]
  by_cases ht : p.text = "" <;> by_cases hd : p.descr = "" <;> simp [ht, hd]

/-- Length of a `filterMap` as a `countP` of defined results. -/
theorem length_filterMap_eq_countP {a b : Type} (f : a → Option b) (l : List a) :
    (l.filterMap f).length = l.countP (fun x => (f x).isSome) := by
  induction l with
  | nil => rfl
  | cons x l ih =>
      rw [List.filterMap_cons]
      cases h : f x with
      | none => simp [List.countP_cons, h, ih]
      | some y => simp [List.countP_cons, h, ih]

/-- C9 amended: the Narration Composer emits one unit per panel whose text
or description is non-empty (the unit carries the text when it is
non-empty), and a panel with both fields empty contributes nothing, so the
number of units is the number of such panels rather than the number of all
panels. -/
theorem script_parts_filtered (ps : List PanelData) :
    (script_parts ps).length =
        (ps.filter (fun p => !(p.text == "") || !(p.descr == ""))).length ∧
      ∀ p ∈ ps, p.text ≠ "" → p.text ∈ script_parts ps := by
  constructor
  · have hpred : (fun p : PanelData => !(p.text == "") || !(p.descr == "")) =
        fun p => (unit_of p).isSome := funext fun p => (unit_of_isSome p).symm
    rw [script_parts, length_filterMap_eq_countP, hpred,
      List.countP_eq_length_filter]
  · intro p hp ht
    exact List.mem_filterMap.mpr ⟨p, hp, by simp [unit_of, ht]⟩

/-- C9 witness: `script_parts_filtered` at a one-panel list with non-empty
text, discharging the membership and non-emptiness hypotheses there. -/
theorem script_parts_filtered_witness :
    ((script_parts [⟨"hi", ""⟩]).length =
        (([⟨"hi", ""⟩] : List PanelData).filter
          (fun p => !(p.text == "") || !(p.descr == ""))).length) ∧
      (⟨"hi", ""⟩ : PanelData) ∈ ([⟨"hi", ""⟩] : List PanelData) ∧
      "hi" ∈ script_parts [⟨"hi", ""⟩] :=
  ⟨(script_parts_filtered [⟨"hi", ""⟩]).1, by decide,
    (script_parts_filtered [⟨"hi", ""⟩]).2 ⟨"hi", ""⟩ (by decide) (by decide)⟩

/-- C10: for a non-empty scene list the assembled clip sequence starts with
the 3-second title card, so the total video duration before audio
reconciliation is the sum of the scene durations plus 3 seconds, and the
clip list has one more entry than the scene list. -/
theorem title_card_prepended (scenes : List SceneDict) (_h : scenes ≠ []) :
    video_duration scenes = (scenes.map scene_clip_duration).sum + 3 ∧
      (recap_clip_durations scenes).head? = some 3 ∧
      (recap_clip_durations scenes).length = scenes.length + 1 := by
  refine ⟨?_, rfl, by simp [recap_clip_durations]⟩
  rw [video_duration, recap_clip_durations, List.sum_cons]
  ring

/-- C10 witness: `title_card_prepended` at a concrete one-scene list. -/
theorem title_card_prepended_witness :
    ([⟨"a", some 5⟩] : List SceneDict) ≠ [] ∧
      (video_duration [⟨"a", some 5⟩] =
          (([⟨"a", some 5⟩] : List SceneDict).map scene_clip_duration).sum + 3 ∧
        (recap_clip_durations [⟨"a", some 5⟩]).head? = some 3 ∧
        (recap_clip_durations [⟨"a", some 5⟩]).length =
          ([⟨"a", some 5⟩] : List SceneDict).length + 1) :=
  ⟨by decide, title_card_prepended [⟨"a", some 5⟩] (by decide)⟩
